import Mathlib

/-!
Shallow embedding of the order ingestion and status-tracking core of
`bot.py` (flower-shop messaging bot): the date-scoped order-ID generator,
the JSON-file order store, the normalizers, and the intake / set-status
handlers.  Python dicts holding a fixed set of keys are modelled as Lean
structures with `Option` fields (absent key = `none`); Python string
truthiness, `str(None)`, zero-padding and `dict.get` defaults are modelled
explicitly.  File I/O is modelled as explicit state passing: each operation
takes the current persisted value and returns the new one.
-/

/-- Python `str.lower` restricted to the alphabets the program uses
(ASCII and Cyrillic, matching the Russian token sets in the source). -/
def pyLowerChar (c : Char) : Char :=
  if 'A' ≤ c ∧ c ≤ 'Z' then Char.ofNat (c.toNat + 32)
  else if 'А' ≤ c ∧ c ≤ 'Я' then Char.ofNat (c.toNat + 32)
  else if c = 'Ё' then 'ё'
  else c

/-- Python `str.upper` on a single character (ASCII and Cyrillic). -/
def pyUpperChar (c : Char) : Char :=
  if 'a' ≤ c ∧ c ≤ 'z' then Char.ofNat (c.toNat - 32)
  else if 'а' ≤ c ∧ c ≤ 'я' then Char.ofNat (c.toNat - 32)
  else if c = 'ё' then 'Ё'
  else c

def pyLower (s : String) : String := String.mk (s.data.map pyLowerChar)

/-- Python `str.strip`: drop whitespace from both ends. -/
def pyStrip (s : String) : String :=
  String.mk (((s.data.dropWhile Char.isWhitespace).reverse.dropWhile Char.isWhitespace).reverse)

/-- Python `str.capitalize`: first character upper-cased, the rest lower-cased. -/
def pyCapitalize (s : String) : String :=
  match s.data with
  | [] => ""
  | c :: cs => String.mk (pyUpperChar c :: cs.map pyLowerChar)

/-- Truthiness of an optional string value (Python: `None` and `""` are falsy). -/
def pyTruthy (x : Option String) : Bool :=
  match x with
  | none => false
  | some s => s ≠ ""

/-- Python `a or b` on optional string values: keeps `a` when truthy, else `b`
(`b` is returned even when falsy, as in Python). -/
def pyOr (a b : Option String) : Option String :=
  if pyTruthy a then a else b

/-- Python `str(x)` on an optional string: `str(None) = "None"`. -/
def pyStr (x : Option String) : String :=
  match x with
  | none => "None"
  | some s => s

/-- `safe_str` from bot.py: em-dash for `None`/blank, else the stripped string. -/
def safe_str (x : Option String) : String :=
  match x with
  | none => "—"
  | some s => if pyStrip s = "" then "—" else pyStrip s

/-- Left-pad a digit string with zeros to a minimum width. -/
def padZeros (s : String) (w : Nat) : String :=
  String.mk (List.replicate (w - s.length) '0') ++ s

/-- Python `f"\x7bn:04d\x7d"`: minimum width 4, zero filled, sign counted in the width. -/
def pyFmt04d (n : Int) : String :=
  if n < 0 then "-" ++ padZeros (toString n.natAbs) 3 else padZeros (toString n.natAbs) 4

/-- The persisted counter record `\x7bdate, counter\x7d` of the ID generator. -/
structure CounterData where
  date : String
  counter : Int
deriving Repr, DecidableEq

/-- `get_next_order_id` from bot.py, with the current date string and the
persisted counter file as explicit inputs (`none` = file absent) and the
newly persisted counter record as an explicit output.  Mirrors the source:
default `\x7bdate: today, counter: 0\x7d`, reset when the stored date differs
from today, increment, format `f"\x7bprefix\x7d-\x7btoday\x7d-\x7bcounter:04d\x7d"`. -/
def get_next_order_id (pfx today : String) (file : Option CounterData) :
    String × CounterData :=
  let data : CounterData :=
    match file with
    | none => ⟨today, 0⟩
    | some d => d
  let data := if data.date ≠ today then (⟨today, 0⟩ : CounterData) else data
  let data : CounterData := ⟨data.date, data.counter + 1⟩
  (pfx ++ "-" ++ today ++ "-" ++ pyFmt04d data.counter, data)

/-- The counter value the generator starts counting from: the stored counter
when the stored date is today, else 0. -/
def startCounter (today : String) (file : Option CounterData) : Int :=
  match file with
  | none => 0
  | some d => if d.date ≠ today then 0 else d.counter

/-- The list of IDs returned by `n` consecutive `get_next_order_id` calls on
the same day, each call reading back the counter record the previous call
persisted. -/
def runGen (pfx today : String) : Nat → Option CounterData → List String
  | 0, _ => []
  | n + 1, st =>
    let r := get_next_order_id pfx today st
    r.1 :: runGen pfx today n (some r.2)

/-- One entry of the `items` array of an order payload. -/
structure Item where
  title : Option String
  qty : Option Int
  price : Option Int
deriving Repr, DecidableEq

/-- The nested `customer` map of an order payload: the keys the core reads. -/
structure Customer where
  deliveryType : Option String
  delivery_type : Option String
  delivery : Option String
  address : Option String
  paymentMethod : Option String
  payment_method : Option String
deriving Repr, DecidableEq

/-- The empty customer map, used when `payload.get("customer", \x7b\x7d) or \x7b\x7d`
yields nothing. -/
def emptyCustomer : Customer := ⟨none, none, none, none, none, none⟩

/-- An order payload / stored order record (the program stores payload dicts
directly): the keys the core reads or writes.  Absent key = `none`. -/
structure Order where
  type : Option String
  orderId : Option String
  createdAt : Option String
  status : Option String
  statusUpdatedAt : Option String
  customer : Option Customer
  deliveryType : Option String
  delivery_type : Option String
  items : List Item
  total : Option Int
  currency : Option String
  tgId : Option Int
  tgUsername : Option String
  tgName : Option String
deriving Repr, DecidableEq

/-- `normalize_delivery_type` from bot.py: probe the alias chain
`customer.deliveryType or customer.delivery_type or customer.delivery or
payload.deliveryType or payload.delivery_type`, strip/lower, match against
the pickup and delivery token sets, else fall back to the address heuristic. -/
def normalize_delivery_type (payload : Order) : String :=
  let customer := payload.customer.getD emptyCustomer
  let val := pyOr customer.deliveryType (pyOr customer.delivery_type
    (pyOr customer.delivery (pyOr payload.deliveryType payload.delivery_type)))
  let s := match val with
    | none => ""
    | some v => pyLower (pyStrip v)
  if s ∈ ["pickup", "самовывоз", "self", "selfpickup", "сам"] then "Самовывоз"
  else if s ∈ ["delivery", "доставка", "courier", "курьер"] then "Доставка"
  else if pyTruthy customer.address then "Доставка"
  else "Самовывоз"

/-- The normalized delivery-type token `normalize_delivery_type` matches
against its token sets: the first truthy alias value, stripped and lowered
(empty when every alias is absent or falsy). -/
def deliveryToken (payload : Order) : String :=
  let customer := payload.customer.getD emptyCustomer
  let val := pyOr customer.deliveryType (pyOr customer.delivery_type
    (pyOr customer.delivery (pyOr payload.deliveryType payload.delivery_type)))
  match val with
  | none => ""
  | some v => pyLower (pyStrip v)

/-- The status-code → display-label table of `status_human` (a Python dict
with distinct keys; `List.lookup` returns the value of the matching key). -/
def statusMapping : List (String × String) :=
  [("accepted", "Принят"), ("created", "Принят"), ("assembling", "Собирается"),
   ("courier", "Курьер выехал"), ("delivered", "Доставлено"),
   ("canceled", "Отменён"), ("принят", "Принят"), ("собирается", "Собирается"),
   ("курьер_выехал", "Курьер выехал"), ("доставлено", "Доставлено"),
   ("отменен", "Отменён"), ("отменён", "Отменён")]

/-- `status_human` from bot.py: `s = (s or "").strip().lower()`, then
`mapping.get(s, s.capitalize() if s else "Принят")`. -/
def status_human (s : Option String) : String :=
  let t := pyLower (pyStrip (s.getD ""))
  match statusMapping.lookup t with
  | some v => v
  | none => if t ≠ "" then pyCapitalize t else "Принят"

/-- `store_order` from bot.py, with the persisted order list passed and
returned explicitly: append the record and rewrite the store. -/
def store_order (db : List Order) (order : Order) : List Order :=
  db ++ [order]

/-- The sort key of `get_last_orders` / `get_user_orders`:
`safe_str(x.get("createdAt"))`. -/
def createdKey (o : Order) : String := safe_str o.createdAt

/-- The comparator of the descending stable sort of `get_last_orders` /
`get_user_orders`: `a` may stay before `b` when `a`'s key is ≥ `b`'s
(Python `list.sort(key=..., reverse=True)` is stable for equal keys). -/
def lastOrdersLE (a b : Order) : Bool := decide (createdKey b ≤ createdKey a)

/-- `get_last_orders` from bot.py, persisted list passed explicitly:
stable sort by `createdAt` key, descending (Python `list.sort` with
`reverse=True` keeps the original order of equal keys), then take `limit`. -/
def get_last_orders (limit : Nat) (db : List Order) : List Order :=
  (db.mergeSort lastOrdersLE).take limit

/-- `update_order_status` from bot.py, persisted list passed and returned
explicitly (`now` is the formatted current local time): linear scan for the
first record whose `str(orderId)` equals `str(order_id)`; on match set
`status` and `statusUpdatedAt` and rewrite the store; the second component
is the Python return value (`None` when not found). -/
def update_order_status (now : String) (db : List Order)
    (order_id : String) (new_status : String) : List Order × Option Order :=
  match db with
  | [] => ([], none)
  | o :: rest =>
    if pyStr o.orderId = order_id then
      let o2 := { o with status := some new_status, statusUpdatedAt := some now }
      (o2 :: rest, some o2)
    else
      let r := update_order_status now rest order_id new_status
      (o :: r.1, r.2)

/-- Python `args.split(maxsplit=1)`: skip leading whitespace, take the first
whitespace-free token, skip the separating whitespace run, and keep the rest
verbatim as a second element when nonempty. -/
def pySplitMax1 (s : String) : List String :=
  let cs := s.data.dropWhile Char.isWhitespace
  match cs with
  | [] => []
  | _ =>
    let tok := cs.takeWhile (fun c => ¬ c.isWhitespace)
    let rest := (cs.dropWhile (fun c => ¬ c.isWhitespace)).dropWhile Char.isWhitespace
    if rest.isEmpty then [String.mk tok] else [String.mk tok, String.mk rest]

/-- The sender of a message: the fields of `message.from_user` the core reads
(`username` and `last_name` may be `None` in the platform API). -/
structure TgUser where
  id : Int
  username : Option String
  first_name : Option String
  last_name : Option String
deriving Repr, DecidableEq

/-- Python `[p for p in l if p]` on optional strings: keep the truthy values. -/
def truthyParts (l : List (Option String)) : List String :=
  l.filterMap (fun x => if pyTruthy x then x else none)

/-- The defaulting step of `on_webapp_data` (bot.py lines 425-434): assign
`orderId`, `createdAt` and `status = "accepted"` only when the payload value
is missing or falsy (Python `if not payload.get(...)`). -/
def applyDefaults (newOrderId nowStr : String) (p : Order) : Order :=
  let p := if pyTruthy p.orderId then p else { p with orderId := some newOrderId }
  let p := if pyTruthy p.createdAt then p else { p with createdAt := some nowStr }
  if pyTruthy p.status then p else { p with status := some "accepted" }

/-- The identity-stamping step of `on_webapp_data` (bot.py lines 437-440):
overwrite `tgId`, `tgUsername`, `tgName` with the submitter's identity
(`u.id if u else 0`, `f"@\x7bu.username\x7d" if u and u.username else ""`, and the
joined truthy name parts, stripped). -/
def stampIdentity (u : Option TgUser) (p : Order) : Order :=
  { p with
    tgId := some (match u with | some v => v.id | none => 0),
    tgUsername := some (match u with
      | some v => if pyTruthy v.username then "@" ++ v.username.getD "" else ""
      | none => ""),
    tgName := some (match u with
      | some v => pyStrip (" ".intercalate (truthyParts [v.first_name, v.last_name]))
      | none => "") }

/-- The order branch of `on_webapp_data` (payload parsed, `type = "order"`):
apply the defaults, stamp the submitter identity, persist via `store_order`.
`newOrderId` is the ID the generator would return and `nowStr` the formatted
current time; returns the new persisted list and the stored record. -/
def on_webapp_order (u : Option TgUser) (newOrderId nowStr : String)
    (db : List Order) (p : Order) : List Order × Order :=
  let r := stampIdentity u (applyDefaults newOrderId nowStr p)
  (store_order db r, r)

/-- The observable outcome of the `/setstatus` handler: the reply sent back
to the requester's chat (`none` = no response at all), the persisted order
list afterwards, and the best-effort notification to the order's submitter. -/
structure SetStatusOutcome where
  reply : Option String
  db : List Order
  clientNotify : Option (Int × String)
deriving Repr, DecidableEq

/-- Usage message of `/setstatus` (empty arguments). -/
def usageMsg : String :=
  "Использование:\n<code>/setstatus FL-20260129-0007 courier</code>\nСтатусы: accepted/assembling/courier/delivered/canceled"

/-- Message of `/setstatus` when fewer than two arguments are given. -/
def needTwoArgsMsg : String := "Нужно 2 аргумента:\n<code>/setstatus ORDER_ID STATUS</code>"

/-- Not-found message of `/setstatus`. -/
def notFoundMsg : String := "Не нашёл такой заказ в базе (orders.json)."

/-- The body of `admin_setstatus` after the admin guard (bot.py lines
380-407): parse the two arguments, update the store, reply, and notify the
submitter when the record carries a truthy `tgId`. -/
def admin_setstatus_body (now : String) (args : Option String)
    (db : List Order) : SetStatusOutcome :=
  let a := pyStrip (args.getD "")
  if a = "" then ⟨some usageMsg, db, none⟩
  else
    match pySplitMax1 a with
    | [oid, rest] =>
      let order_id := pyStrip oid
      let new_status := pyStrip rest
      let r := update_order_status now db order_id new_status
      match r.2 with
      | none => ⟨some notFoundMsg, db, none⟩
      | some upd =>
        let human := status_human (some new_status)
        let tg := upd.tgId.getD 0
        ⟨some ("✅ Статус обновлён: <code>" ++ order_id ++ "</code> → <b>" ++ human ++ "</b>"),
         r.1,
         if tg ≠ 0 then
           some (tg, "📦 Заказ <code>" ++ order_id ++ "</code>\nСтатус: <b>" ++ human ++ "</b>")
         else none⟩
    | _ => ⟨some needTwoArgsMsg, db, none⟩

/-- `admin_setstatus` from bot.py: silently return (no reply, no mutation,
no notification) unless the sender is the designated admin, else run the
body. -/
def admin_setstatus (fromId adminId : Int) (now : String) (args : Option String)
    (db : List Order) : SetStatusOutcome :=
  if fromId ≠ adminId then ⟨none, db, none⟩
  else admin_setstatus_body now args db

/-- Title-casing as the claim's wording describes the rendering of unknown
status codes ("that code title-cased"): every space-separated word has its
first letter upper-cased and the rest lower-cased.  Declared from the spec's
words, to be compared against `status_human` from the source. -/
def titleCased_spec (s : String) : String :=
  String.mk (List.intercalate [' '] ((s.data.splitOn ' ').map
    (fun w => match w with | [] => [] | c :: cs => pyUpperChar c :: cs.map pyLowerChar)))

/-- A sample stored order record used by concrete witnesses. -/
def sampleA : Order :=
  ⟨some "order", some "FL-20260101-0001", some "2026-01-01 09:00:00",
   some "accepted", none, none, none, none, [], some 100000, some "UZS",
   some 7, none, none⟩

/-- A second sample stored order record used by concrete witnesses. -/
def sampleB : Order :=
  ⟨some "order", some "FL-20260101-0002", some "2026-01-01 10:00:00",
   some "accepted", none, none, none, none, [], some 200000, some "UZS",
   some 42, none, none⟩

/-- One `get_next_order_id` call returns the ID formatted from the
incremented start counter and persists `\x7btoday, start + 1\x7d`. -/
theorem get_next_order_id_eq (pfx today : String) (st : Option CounterData) :
    get_next_order_id pfx today st =
      (pfx ++ "-" ++ today ++ "-" ++ pyFmt04d (startCounter today st + 1),
       ⟨today, startCounter today st + 1⟩) := by
  cases st with
  | none => simp [get_next_order_id, startCounter]
  | some d =>
    by_cases hd : d.date = today
    · simp [get_next_order_id, startCounter, hd]
    · simp [get_next_order_id, startCounter, hd]

/-- C1: for every N consecutive ID-generator calls on the same calendar day
(the counter record written by one call being read by the next), the k-th
returned ID is `prefix-YYYYMMDD-pad4(c0 + 1 + k)` where `c0` is the starting
counter, so the sequence numbers strictly increase by exactly 1 with no
gaps, each rendered by the 4-digit zero-padding format. -/
theorem c1_consecutive_ids_increment_by_one (pfx today : String)
    (st : Option CounterData) (n : Nat) :
    runGen pfx today n st =
      (List.range n).map
        (fun (k : Nat) => pfx ++ "-" ++ today ++ "-" ++
          pyFmt04d (startCounter today st + 1 + (k : Int))) := by
  induction n generalizing st with
  | zero => rfl
  | succ n ih =>
    simp only [runGen, get_next_order_id_eq]
    rw [ih, List.range_succ_eq_map, List.map_cons, List.map_map]
    simp only [List.cons.injEq]
    constructor
    · congr 1
      norm_num
    · simp only [startCounter, ne_eq, not_true_eq_false, if_neg, ite_false]
      congr 1
      funext k
      congr 1
      push_cast
      ring_nf

/-- C2: when the stored counter record's date differs from the current day
the counter is reset to 0 before incrementing, so the first ID of the new
day carries sequence number `0001`; issuing an ID on day D1 and then on a
different day D2 yields `0001` as the sequence part of the first ID of each
day. -/
theorem c2_day_rollover_resets_counter (pfx d1 d2 : String) (st : CounterData)
    (h1 : st.date ≠ d1) (h2 : d1 ≠ d2) :
    (get_next_order_id pfx d1 (some st)).1 = pfx ++ "-" ++ d1 ++ "-" ++ "0001" ∧
    (get_next_order_id pfx d2 (some (get_next_order_id pfx d1 (some st)).2)).1
      = pfx ++ "-" ++ d2 ++ "-" ++ "0001" := by
  have hfmt : pyFmt04d 1 = "0001" := by decide
  constructor
  · rw [get_next_order_id_eq]
    simp [startCounter, h1, hfmt]
  · rw [get_next_order_id_eq, get_next_order_id_eq]
    simp [startCounter, h1, h2, hfmt]

/-- Witness for C2 at a concrete input: counter file from 2026-01-01 with
counter 5, then IDs issued on 2026-01-02 and 2026-01-03. -/
theorem c2_day_rollover_resets_counter_witness :
    (⟨"20260101", 5⟩ : CounterData).date ≠ "20260102" ∧
    ("20260102" : String) ≠ "20260103" ∧
    (get_next_order_id "FL" "20260102" (some ⟨"20260101", 5⟩)).1
      = "FL" ++ "-" ++ "20260102" ++ "-" ++ "0001" ∧
    (get_next_order_id "FL" "20260103"
        (some (get_next_order_id "FL" "20260102" (some ⟨"20260101", 5⟩)).2)).1
      = "FL" ++ "-" ++ "20260103" ++ "-" ++ "0001" :=
  ⟨by decide, by decide,
   (c2_day_rollover_resets_counter "FL" "20260102" "20260103" ⟨"20260101", 5⟩
      (by decide) (by decide)).1,
   (c2_day_rollover_resets_counter "FL" "20260102" "20260103" ⟨"20260101", 5⟩
      (by decide) (by decide)).2⟩

/-- C5: when a payload already carries truthy `orderId`, `createdAt` and
`status` values, the intake defaulting step leaves them untouched, and
running the defaulting step a second time on the resulting record (with any
freshly generated ID and timestamp) still leaves those three fields equal to
the original ones: the defaulting of ID, timestamp and status is idempotent. -/
theorem c5_defaults_idempotent (p : Order) (id1 t1 id2 t2 : String)
    (h1 : pyTruthy p.orderId) (h2 : pyTruthy p.createdAt)
    (h3 : pyTruthy p.status) :
    (applyDefaults id2 t2 (applyDefaults id1 t1 p)).orderId = p.orderId ∧
    (applyDefaults id2 t2 (applyDefaults id1 t1 p)).createdAt = p.createdAt ∧
    (applyDefaults id2 t2 (applyDefaults id1 t1 p)).status = p.status := by
  simp [applyDefaults, h1, h2, h3]

/-- Witness for C5 at a concrete payload with all three fields set. -/
theorem c5_defaults_idempotent_witness :
    (applyDefaults "FL-20260102-0002" "2026-01-02 11:00:00"
        (applyDefaults "FL-20260102-0001" "2026-01-02 10:00:00"
          ⟨some "order", some "FL-20260101-0009", some "2026-01-01 09:00:00",
           some "accepted", none, none, none, none, [], some 350000,
           some "UZS", none, none, none⟩)).orderId = some "FL-20260101-0009" ∧
    (applyDefaults "FL-20260102-0002" "2026-01-02 11:00:00"
        (applyDefaults "FL-20260102-0001" "2026-01-02 10:00:00"
          ⟨some "order", some "FL-20260101-0009", some "2026-01-01 09:00:00",
           some "accepted", none, none, none, none, [], some 350000,
           some "UZS", none, none, none⟩)).createdAt = some "2026-01-01 09:00:00" ∧
    (applyDefaults "FL-20260102-0002" "2026-01-02 11:00:00"
        (applyDefaults "FL-20260102-0001" "2026-01-02 10:00:00"
          ⟨some "order", some "FL-20260101-0009", some "2026-01-01 09:00:00",
           some "accepted", none, none, none, none, [], some 350000,
           some "UZS", none, none, none⟩)).status = some "accepted" :=
  c5_defaults_idempotent
    ⟨some "order", some "FL-20260101-0009", some "2026-01-01 09:00:00",
     some "accepted", none, none, none, none, [], some 350000,
     some "UZS", none, none, none⟩
    "FL-20260102-0001" "2026-01-02 10:00:00"
    "FL-20260102-0002" "2026-01-02 11:00:00"
    (by decide) (by decide) (by decide)

/-- C9: the intake handler overwrites `tgId`, `tgUsername` and `tgName` with
the submitter's messaging-platform identity, so two intakes submitted by the
same identity store identical identity fields regardless of what the client
payloads contained, and the identity fields never depend on the payload. -/
theorem c9_identity_stamped_by_service (u : Option TgUser)
    (id1 t1 id2 t2 : String) (db1 db2 : List Order) (p1 p2 : Order) :
    ((on_webapp_order u id1 t1 db1 p1).2.tgId = (on_webapp_order u id2 t2 db2 p2).2.tgId ∧
     (on_webapp_order u id1 t1 db1 p1).2.tgUsername = (on_webapp_order u id2 t2 db2 p2).2.tgUsername ∧
     (on_webapp_order u id1 t1 db1 p1).2.tgName = (on_webapp_order u id2 t2 db2 p2).2.tgName) ∧
    (on_webapp_order u id1 t1 db1 p1).2.tgId
      = some (match u with | some v => v.id | none => 0) ∧
    (on_webapp_order u id1 t1 db1 p1).1
      = db1 ++ [(on_webapp_order u id1 t1 db1 p1).2] :=
  ⟨⟨rfl, rfl, rfl⟩, rfl, rfl⟩

/-- C7: a `/setstatus` request from any identity other than the designated
admin is silently ignored: no reply, no store mutation, no client
notification; a request from the admin identity runs the handler body. -/
theorem c7_non_admin_silently_ignored (fromId adminId : Int) (now : String)
    (args : Option String) (db : List Order) (h : fromId ≠ adminId) :
    admin_setstatus fromId adminId now args db = ⟨none, db, none⟩ ∧
    admin_setstatus adminId adminId now args db
      = admin_setstatus_body now args db := by
  constructor
  · simp [admin_setstatus, h]
  · simp [admin_setstatus]

/-- Witness for C7 at a concrete non-admin identity and nonempty store. -/
theorem c7_non_admin_silently_ignored_witness :
    (111 : Int) ≠ 6013591658 ∧
    admin_setstatus 111 6013591658 "2026-01-02 10:00:00"
        (some "FL-20260101-0001 courier")
        [⟨some "order", some "FL-20260101-0001", some "2026-01-01 09:00:00",
          some "accepted", none, none, none, none, [], some 350000,
          some "UZS", some 42, none, none⟩]
      = ⟨none,
         [⟨some "order", some "FL-20260101-0001", some "2026-01-01 09:00:00",
           some "accepted", none, none, none, none, [], some 350000,
           some "UZS", some 42, none, none⟩], none⟩ :=
  ⟨by decide,
   (c7_non_admin_silently_ignored 111 6013591658 "2026-01-02 10:00:00"
      (some "FL-20260101-0001 courier")
      [⟨some "order", some "FL-20260101-0001", some "2026-01-01 09:00:00",
        some "accepted", none, none, none, none, [], some 350000,
        some "UZS", some 42, none, none⟩]
      (by decide)).1⟩

/-- `normalize_delivery_type` cases on the normalized delivery token and
falls back to the address heuristic. -/
theorem normalize_delivery_type_eq (p : Order) :
    normalize_delivery_type p =
      if deliveryToken p ∈ ["pickup", "самовывоз", "self", "selfpickup", "сам"]
        then "Самовывоз"
      else if deliveryToken p ∈ ["delivery", "доставка", "courier", "курьер"]
        then "Доставка"
      else if pyTruthy (p.customer.getD emptyCustomer).address then "Доставка"
      else "Самовывоз" := rfl

/-- C6 counterexample: two payloads whose explicit delivery-type field holds
the same present (truthy) but unrecognized value "weird" get different
results depending on the address, so a present explicit value does not
always determine the result or win over the address heuristic. -/
theorem c6_explicit_value_does_not_always_win :
    deliveryToken
        ⟨none, none, none, none, none,
         some ⟨some "weird", none, none, some "Street 1", none, none⟩,
         none, none, [], none, none, none, none, none⟩ = "weird" ∧
    deliveryToken
        ⟨none, none, none, none, none,
         some ⟨some "weird", none, none, none, none, none⟩,
         none, none, [], none, none, none, none, none⟩ = "weird" ∧
    normalize_delivery_type
        ⟨none, none, none, none, none,
         some ⟨some "weird", none, none, some "Street 1", none, none⟩,
         none, none, [], none, none, none, none, none⟩ = "Доставка" ∧
    normalize_delivery_type
        ⟨none, none, none, none, none,
         some ⟨some "weird", none, none, none, none, none⟩,
         none, none, [], none, none, none, none, none⟩ = "Самовывоз" := by
  refine ⟨by decide, by decide, by decide, by decide⟩

/-- C6 amended: with no recognized delivery token, no address means the
pickup label and an address means the delivery label; an explicit value that
is recognized (in the pickup or delivery token set after strip/lower)
determines the result regardless of the address, while unrecognized or
absent values fall through to the address heuristic. -/
theorem c6_delivery_type_normalization (p : Order) :
    (deliveryToken p ∈ ["pickup", "самовывоз", "self", "selfpickup", "сам"] →
       normalize_delivery_type p = "Самовывоз") ∧
    (deliveryToken p ∈ ["delivery", "доставка", "courier", "курьер"] →
       normalize_delivery_type p = "Доставка") ∧
    (deliveryToken p ∉ ["pickup", "самовывоз", "self", "selfpickup", "сам"] →
       deliveryToken p ∉ ["delivery", "доставка", "courier", "курьер"] →
       pyTruthy (p.customer.getD emptyCustomer).address = true →
       normalize_delivery_type p = "Доставка") ∧
    (deliveryToken p ∉ ["pickup", "самовывоз", "self", "selfpickup", "сам"] →
       deliveryToken p ∉ ["delivery", "доставка", "courier", "курьер"] →
       pyTruthy (p.customer.getD emptyCustomer).address = false →
       normalize_delivery_type p = "Самовывоз") := by
  rw [normalize_delivery_type_eq]
  refine ⟨?_, ?_, ?_, ?_⟩
  · intro h
    rw [if_pos h]
  · intro h
    have hnp : deliveryToken p ∉ ["pickup", "самовывоз", "self", "selfpickup", "сам"] := by
      simp only [List.mem_cons, List.not_mem_nil, or_false] at h
      rcases h with h | h | h | h <;> simp [h]
    rw [if_neg hnp, if_pos h]
  · intro h1 h2 h3
    rw [if_neg h1, if_neg h2, if_pos h3]
  · intro h1 h2 h3
    rw [if_neg h1, if_neg h2, if_neg (by simp [h3])]

/-- Witness for C6 amended: an explicit "pickup" beats a populated address,
and with no alias at all a populated address yields the delivery label. -/
theorem c6_delivery_type_normalization_witness :
    normalize_delivery_type
        ⟨none, none, none, none, none,
         some ⟨some "pickup", none, none, some "Street 1", none, none⟩,
         none, none, [], none, none, none, none, none⟩ = "Самовывоз" ∧
    normalize_delivery_type
        ⟨none, none, none, none, none,
         some ⟨none, none, none, some "Street 1", none, none⟩,
         none, none, [], none, none, none, none, none⟩ = "Доставка" ∧
    normalize_delivery_type
        ⟨none, none, none, none, none, none,
         none, none, [], none, none, none, none, none⟩ = "Самовывоз" :=
  ⟨(c6_delivery_type_normalization
      ⟨none, none, none, none, none,
       some ⟨some "pickup", none, none, some "Street 1", none, none⟩,
       none, none, [], none, none, none, none, none⟩).1 (by decide),
   (c6_delivery_type_normalization
      ⟨none, none, none, none, none,
       some ⟨none, none, none, some "Street 1", none, none⟩,
       none, none, [], none, none, none, none, none⟩).2.2.1
      (by decide) (by decide) (by decide),
   (c6_delivery_type_normalization
      ⟨none, none, none, none, none, none,
       none, none, [], none, none, none, none, none⟩).2.2.2
      (by decide) (by decide) (by decide)⟩

/-- `status_human` unfolded: table lookup on the stripped, lower-cased code,
else capitalize when nonempty, else the accepted label. -/
theorem status_human_eq (s : Option String) :
    status_human s =
      match statusMapping.lookup (pyLower (pyStrip (s.getD ""))) with
      | some v => v
      | none =>
        if pyLower (pyStrip (s.getD "")) ≠ ""
          then pyCapitalize (pyLower (pyStrip (s.getD "")))
          else "Принят" := rfl

/-- C8 counterexample: the unknown non-empty code "hello world" (reachable,
since `/setstatus` passes the whole remainder of the command line as the
status) renders as "Hello world" (Python `str.capitalize`), not as its
title-cased form "Hello World". -/
theorem c8_unknown_code_is_capitalized_not_titlecased :
    status_human (some "hello world") = "Hello world" ∧
    titleCased_spec "hello world" = "Hello World" ∧
    status_human (some "hello world") ≠ titleCased_spec "hello world" := by
  refine ⟨by decide, by decide, by decide⟩

/-- C8 amended: every code of the fixed vocabulary maps to its fixed display
text; an unknown code that is non-empty after strip/lower is returned
stripped, lower-cased and with only its first character upper-cased (Python
`str.capitalize`, not full title-casing); a code that is empty or missing
(strips to empty) maps to the "accepted" label "Принят". -/
theorem c8_status_label_mapping (s : Option String) :
    (status_human (some "accepted") = "Принят" ∧
     status_human (some "created") = "Принят" ∧
     status_human (some "assembling") = "Собирается" ∧
     status_human (some "courier") = "Курьер выехал" ∧
     status_human (some "delivered") = "Доставлено" ∧
     status_human (some "canceled") = "Отменён" ∧
     status_human (some "принят") = "Принят" ∧
     status_human (some "собирается") = "Собирается" ∧
     status_human (some "курьер_выехал") = "Курьер выехал" ∧
     status_human (some "доставлено") = "Доставлено" ∧
     status_human (some "отменен") = "Отменён" ∧
     status_human (some "отменён") = "Отменён" ∧
     status_human none = "Принят") ∧
    (statusMapping.lookup (pyLower (pyStrip (s.getD ""))) = none →
       pyLower (pyStrip (s.getD "")) ≠ "" →
       status_human s = pyCapitalize (pyLower (pyStrip (s.getD "")))) ∧
    (pyLower (pyStrip (s.getD "")) = "" → status_human s = "Принят") := by
  refine ⟨by decide, ?_, ?_⟩
  · intro h1 h2
    rw [status_human_eq, h1]
    simp [h2]
  · intro h
    rw [status_human_eq, h]
    decide

/-- Witness for C8 amended at concrete inputs: the unknown code "vip order"
and the blank code "   ". -/
theorem c8_status_label_mapping_witness :
    (statusMapping.lookup (pyLower (pyStrip "vip order")) = none ∧
     pyLower (pyStrip "vip order") ≠ "" ∧
     status_human (some "vip order") = pyCapitalize (pyLower (pyStrip "vip order"))) ∧
    (pyLower (pyStrip "   ") = "" ∧ status_human (some "   ") = "Принят") :=
  ⟨⟨by decide, by decide,
    (c8_status_label_mapping (some "vip order")).2.1 (by decide) (by decide)⟩,
   ⟨by decide, (c8_status_label_mapping (some "   ")).2.2 (by decide)⟩⟩

/-- When no record's `str(orderId)` equals the requested ID,
`update_order_status` performs no write and returns the store unchanged with
a `None` result. -/
theorem update_order_status_not_found (now : String) (db : List Order)
    (oid ns : String) (h : ∀ o ∈ db, pyStr o.orderId ≠ oid) :
    update_order_status now db oid ns = (db, none) := by
  induction db with
  | nil => rfl
  | cons o rest ih =>
    have ho : pyStr o.orderId ≠ oid := h o (List.mem_cons_self o rest)
    simp only [update_order_status, if_neg ho]
    rw [ih (fun x hx => h x (List.mem_cons_of_mem o hx))]

/-- C10: when the store holds a first matching record at index `i`, a
successful `update_order_status` returns that record with only `status` and
`statusUpdatedAt` changed, the persisted list is the original with only
index `i` replaced by that updated record, and every other index is
unchanged. -/
theorem c10_update_mutates_only_first_match (now oid ns : String)
    (db : List Order) (i : Nat) (o : Order)
    (hfind : db.findIdx (fun x => pyStr x.orderId == oid) = i)
    (hget : db[i]? = some o) :
    (update_order_status now db oid ns).2
      = some { o with status := some ns, statusUpdatedAt := some now } ∧
    (update_order_status now db oid ns).1
      = db.set i { o with status := some ns, statusUpdatedAt := some now } ∧
    ∀ j, j ≠ i → (update_order_status now db oid ns).1[j]? = db[j]? := by
  have hmain : (update_order_status now db oid ns).2
      = some { o with status := some ns, statusUpdatedAt := some now } ∧
      (update_order_status now db oid ns).1
        = db.set i { o with status := some ns, statusUpdatedAt := some now } := by
    induction db generalizing i with
    | nil => simp at hget
    | cons a rest ih =>
      rw [List.findIdx_cons] at hfind
      by_cases ha : pyStr a.orderId == oid
      · rw [ha] at hfind
        simp only [cond_true] at hfind
        subst hfind
        simp only [List.getElem?_cons_zero, Option.some.injEq] at hget
        subst hget
        have ha' : pyStr a.orderId = oid := by simpa using ha
        simp [update_order_status, ha']
      · rw [Bool.of_not_eq_true ha] at hfind
        simp only [cond_false] at hfind
        cases i with
        | zero => omega
        | succ i' =>
          have hfind' : rest.findIdx (fun x => pyStr x.orderId == oid) = i' := by
            omega
          have hget' : rest[i']? = some o := by simpa using hget
          have ha' : pyStr a.orderId ≠ oid := by simpa using ha
          have hr := ih i' hfind' hget'
          simp only [update_order_status, if_neg ha', List.set_cons_succ]
          exact ⟨hr.1, by rw [hr.2]⟩
  refine ⟨hmain.1, hmain.2, ?_⟩
  intro j hj
  rw [hmain.2]
  exact List.getElem?_set_ne (Ne.symm hj)

/-- Witness for C10 at a concrete two-record store whose second record
matches. -/
theorem c10_update_mutates_only_first_match_witness :
    [sampleA, sampleB].findIdx (fun x => pyStr x.orderId == "FL-20260101-0002") = 1 ∧
    [sampleA, sampleB][1]? = some sampleB ∧
    (update_order_status "2026-01-02 12:00:00" [sampleA, sampleB]
        "FL-20260101-0002" "courier").2
      = some { sampleB with
               status := some "courier"
               statusUpdatedAt := some "2026-01-02 12:00:00" } ∧
    (update_order_status "2026-01-02 12:00:00" [sampleA, sampleB]
        "FL-20260101-0002" "courier").1
      = [sampleA, sampleB].set 1
          { sampleB with
            status := some "courier"
            statusUpdatedAt := some "2026-01-02 12:00:00" } :=
  ⟨by decide, by decide,
   (c10_update_mutates_only_first_match "2026-01-02 12:00:00" "FL-20260101-0002"
      "courier" [sampleA, sampleB] 1 sampleB (by decide) (by decide)).1,
   (c10_update_mutates_only_first_match "2026-01-02 12:00:00" "FL-20260101-0002"
      "courier" [sampleA, sampleB] 1 sampleB (by decide) (by decide)).2.1⟩

/-- C4: a well-formed `/setstatus` request from the admin naming an order ID
that matches no stored record replies with the plain not-found message,
leaves the persisted store completely unchanged, sends no client
notification, and `update_order_status` returns the Python `None`. -/
theorem c4_setstatus_unknown_order_not_found (adminId : Int) (now : String)
    (args : Option String) (db : List Order) (oid stArg : String)
    (hne : pyStrip (args.getD "") ≠ "")
    (hsplit : pySplitMax1 (pyStrip (args.getD "")) = [oid, stArg])
    (hmatch : ∀ o ∈ db, pyStr o.orderId ≠ pyStrip oid) :
    admin_setstatus adminId adminId now args db = ⟨some notFoundMsg, db, none⟩ ∧
    (update_order_status now db (pyStrip oid) (pyStrip stArg)).2 = none := by
  have hupd := update_order_status_not_found now db (pyStrip oid) (pyStrip stArg) hmatch
  constructor
  · have hbody : admin_setstatus adminId adminId now args db
        = admin_setstatus_body now args db := by
      simp [admin_setstatus]
    rw [hbody]
    simp only [admin_setstatus_body, if_neg hne, hsplit]
    rw [hupd]
  · rw [hupd]

/-- Witness for C4 at the spec's concrete scenario: `/setstatus
FL-NOPE-0000 courier` against a store holding one other order. -/
theorem c4_setstatus_unknown_order_not_found_witness :
    pySplitMax1 (pyStrip "FL-NOPE-0000 courier") = ["FL-NOPE-0000", "courier"] ∧
    admin_setstatus 6013591658 6013591658 "2026-01-02 12:00:00"
        (some "FL-NOPE-0000 courier") [sampleA]
      = ⟨some notFoundMsg, [sampleA], none⟩ ∧
    (update_order_status "2026-01-02 12:00:00" [sampleA]
        (pyStrip "FL-NOPE-0000") (pyStrip "courier")).2 = none :=
  ⟨by decide,
   (c4_setstatus_unknown_order_not_found 6013591658 "2026-01-02 12:00:00"
      (some "FL-NOPE-0000 courier") [sampleA] "FL-NOPE-0000" "courier"
      (by decide) (by decide) (by decide)).1,
   (c4_setstatus_unknown_order_not_found 6013591658 "2026-01-02 12:00:00"
      (some "FL-NOPE-0000 courier") [sampleA] "FL-NOPE-0000" "courier"
      (by decide) (by decide) (by decide)).2⟩

/-- C3 counterexample: appending an order whose `createdAt` sorts below an
already stored record and listing the most recent one returns the stored
record, not the appended one, so the append / listRecent(1) round-trip fails
for stores already holding a later record. -/
theorem c3_roundtrip_fails_on_nonempty_store :
    get_last_orders 1 (store_order [sampleB] sampleA) ≠ [sampleA] ∧
    get_last_orders 1 (store_order [sampleB] sampleA) = [sampleB] := by
  have hkey : createdKey sampleA ≤ createdKey sampleB := by
    rw [String.le_iff_toList_le]
    decide
  have hs : List.mergeSort [sampleB, sampleA] lastOrdersLE = [sampleB, sampleA] := by
    refine List.mergeSort_of_sorted (List.pairwise_cons.mpr ⟨?_, List.pairwise_singleton _ _⟩)
    intro b hb
    rw [List.mem_singleton] at hb
    subst hb
    simp [lastOrdersLE, hkey]
  have h2 : get_last_orders 1 (store_order [sampleB] sampleA) = [sampleB] := by
    show ([sampleB, sampleA].mergeSort lastOrdersLE).take 1 = [sampleB]
    rw [hs]
    rfl
  exact ⟨by rw [h2]; decide, h2⟩

/-- C3 amended: appending an order whose `createdAt` sort key is strictly
greater than every stored record's key (in particular, appending to an empty
store) and then listing the most recent record returns exactly the appended
record, unchanged. -/
theorem c3_append_then_list_recent (db : List Order) (order : Order)
    (h : ∀ o ∈ db, createdKey o < createdKey order) :
    get_last_orders 1 (store_order db order) = [order] := by
  have htrans : ∀ a b c : Order,
      lastOrdersLE a b → lastOrdersLE b c → lastOrdersLE a c := by
    intro a b c h1 h2
    simp only [lastOrdersLE, decide_eq_true_eq] at *
    exact le_trans h2 h1
  have htotal : ∀ a b : Order, lastOrdersLE a b || lastOrdersLE b a := by
    intro a b
    simp only [lastOrdersLE]
    rcases le_total (createdKey a) (createdKey b) with hab | hab <;> simp [hab]
  have hsorted := List.sorted_mergeSort htrans htotal (db ++ [order])
  obtain ⟨h0, t, heq⟩ : ∃ h0 t,
      (db ++ [order]).mergeSort lastOrdersLE = h0 :: t := by
    cases hm : (db ++ [order]).mergeSort lastOrdersLE with
    | nil =>
      exfalso
      have := congrArg List.length hm
      simp at this
    | cons x xs => exact ⟨x, xs, rfl⟩
  have hmem : h0 ∈ db ++ [order] := by
    have hx : h0 ∈ (db ++ [order]).mergeSort lastOrdersLE := by
      rw [heq]
      exact List.mem_cons_self _ _
    exact List.mem_mergeSort.mp hx
  have h0eq : h0 = order := by
    rcases List.mem_append.mp hmem with hin | hin
    · exfalso
      have hkey := h h0 hin
      have horder : order ∈ h0 :: t := by
        rw [← heq]
        exact List.mem_mergeSort.mpr (List.mem_append.mpr (Or.inr (List.mem_singleton.mpr rfl)))
      rcases List.mem_cons.mp horder with he | hin2
      · rw [he] at hkey
        exact lt_irrefl _ hkey
      · rw [heq] at hsorted
        have hle := (List.pairwise_cons.mp hsorted).1 order hin2
        simp only [lastOrdersLE, decide_eq_true_eq] at hle
        exact absurd hle (not_le.mpr hkey)
    · exact List.mem_singleton.mp hin
  show ((db ++ [order]).mergeSort lastOrdersLE).take 1 = [order]
  rw [heq, h0eq]
  rfl

/-- Witness for C3 amended: appending a record with a strictly later
`createdAt` than the single stored record. -/
theorem c3_append_then_list_recent_witness :
    (createdKey sampleA < createdKey sampleB) ∧
    get_last_orders 1 (store_order [sampleA] sampleB) = [sampleB] :=
  ⟨by rw [String.lt_iff_toList_lt]; decide,
   c3_append_then_list_recent [sampleA] sampleB (by
    intro o ho
    rw [List.mem_singleton] at ho
    subst ho
    rw [String.lt_iff_toList_lt]
    decide)⟩
